import Mathlib

/-!
Verification development for the position-lifecycle engine of `src/bot.ts`
(class `Bot`): momentum indicators (`calculateMACDv2`, `calculateRSIv2`),
the entry gate (`waitForBuySignal`), the exit monitor (`waitForSellSignal`
and the per-mint stop-loss map), admission control (the semaphore check in
`Bot.buy` plus `sellExecutionCount`), and the buy/sell pipelines.

Conventions of the shallow embedding:
* JavaScript numbers used by the indicator arithmetic are modelled as `Rat`.
  A value that the JavaScript code would hold as `null` or `NaN` is modelled
  as `none : Option Rat`; both are falsy in JavaScript, which the `truthy`
  predicate below mirrors.
* Raw token amounts (`TokenAmount`/BN integers) are modelled as `Nat`; the
  BN operations `.mul(p).numerator.div(new BN(100))` are floor divisions on
  those raw integers, which `Nat` division matches for the non-negative
  values that occur.
* External collaborators (RPC price fetches, caches, filters, the
  transaction executor) are oracles: functions supplied as parameters.
  A fetch that throws is the oracle returning `none` / `Except.error`.
* Loops that run `timesChecked` up to a bound are modelled with explicit
  fuel equal to the number of iterations of the `do/while` loop.
-/

/-! ## MomentumSignal: `calculateMACDv2` (src/bot.ts lines 111-155) -/

/-- Short EMA period from line 112. -/
def shortPeriod : Nat := 12

/-- Long EMA period from line 113. -/
def longPeriod : Nat := 26

/-- Signal EMA period from line 114. -/
def signalPeriod : Nat := 9

/-- One exponential-moving-average update `(x - ema) * mult + ema`
(lines 129-130, 147). -/
def emaStep (mult ema x : Rat) : Rat := (x - ema) * mult + ema

/-- The loop of lines 128-134: walk the data past the long-period seed,
updating both EMAs and collecting `shortEMA - longEMA`. -/
def macdLineAux : List Rat → Rat → Rat → List Rat
  | [], _, _ => []
  | x :: xs, s, l =>
    let s2 := emaStep (2 / ((shortPeriod : Rat) + 1)) s x
    let l2 := emaStep (2 / ((longPeriod : Rat) + 1)) l x
    (s2 - l2) :: macdLineAux xs s2 l2

/-- The MACD line of `calculateMACDv2`: EMAs seeded with simple averages of
the first 12 / 26 samples (lines 124-125), then the loop of lines 128-134. -/
def macdLine (data : List Rat) : List Rat :=
  macdLineAux (data.drop longPeriod)
    ((data.take shortPeriod).sum / (shortPeriod : Rat))
    ((data.take longPeriod).sum / (longPeriod : Rat))

/-- Signal line seed, lines 137-141: a simple average of the first nine MACD
values.  The JavaScript loop reads `macdLine[0] .. macdLine[8]` without a
bounds check; when the MACD line is shorter than nine entries the read is
out of bounds (`undefined`), the sum becomes `NaN`, and every later signal
value stays `NaN` - modelled by `none`. -/
def signalSeed (ml : List Rat) : Option Rat :=
  if signalPeriod ≤ ml.length then
    some ((ml.take signalPeriod).sum / (signalPeriod : Rat))
  else none

/-- Last value of the signal line (lines 144-149 and the selection in line
153): the nine-value seed followed by EMA updates over the remaining MACD
values.  `none` propagates the `NaN` produced by an out-of-bounds seed. -/
def signalLast (ml : List Rat) : Option Rat :=
  (signalSeed ml).map fun s0 =>
    (ml.drop signalPeriod).foldl (emaStep (2 / ((signalPeriod : Rat) + 1))) s0

/-- `Bot.calculateMACDv2` (lines 111-155).  Returns the pair
(last MACD value, last signal value); `(none, none)` is the null pair
returned when `data.length < longPeriod + signalPeriod - 1` (line 116). -/
def calculateMACDv2 (data : List Rat) : Option Rat × Option Rat :=
  if data.length < longPeriod + signalPeriod - 1 then (none, none)
  else ((macdLine data).getLast?, signalLast (macdLine data))

/-! ## MomentumSignal: `calculateRSIv2` (src/bot.ts lines 158-199) -/

/-- Wilder RSI period from line 159. -/
def rsiPeriod : Nat := 14

/-- Consecutive price differences `prices[i] - prices[i-1]` (lines 164-166). -/
def deltas (prices : List Rat) : List Rat :=
  List.zipWith (fun a b => b - a) prices (prices.drop 1)

/-- The Wilder smoothing loop of lines 184-196, carrying the previous average
gain/loss and the current RSI value.  The division `avgGain / avgLoss` is
modelled with the IEEE special cases spelled out: a zero average loss gives
RSI `100` (RS is `+Infinity`) unless the average gain is also zero, in which
case RS and the RSI are `NaN` (`none`).  The carried value is returned when
the delta list is exhausted. -/
def rsiLoop : Rat → Rat → Option Rat → List Rat → Option Rat
  | _, _, c, [] => c
  | pg, pl, _, d :: ds =>
    let g := if 0 < d then d else 0
    let lo := if d < 0 then -d else 0
    let ag := (pg * ((rsiPeriod : Rat) - 1) + g) / (rsiPeriod : Rat)
    let al := (pl * ((rsiPeriod : Rat) - 1) + lo) / (rsiPeriod : Rat)
    rsiLoop ag al
      (if al = 0 then (if ag = 0 then none else some 100)
       else some (100 - 100 / (1 + ag / al)))
      ds

/-- `Bot.calculateRSIv2` (lines 158-199).  The first-period sums of lines
168-174 split the first fourteen deltas into gains and absolute losses; the
loop of lines 184-196 then smooths over the remaining deltas, starting from
`cRSI = 0` (line 182).  For fewer than fifteen samples the loop body never
runs and the initial `0` is returned unchanged (the garbage the JavaScript
code accumulates into `lossSum` from out-of-bounds reads is dead in that
case, so it is not modelled). -/
def calculateRSIv2 (prices : List Rat) : Option Rat :=
  rsiLoop
    ((((deltas prices).take rsiPeriod).filter fun d => 0 < d).sum / (rsiPeriod : Rat))
    ((-(((deltas prices).take rsiPeriod).filter fun d => d < 0).sum) / (rsiPeriod : Rat))
    (some 0)
    ((deltas prices).drop rsiPeriod)

/-! ### Basic length lemmas -/

lemma macdLineAux_length (xs : List Rat) : ∀ s l, (macdLineAux xs s l).length = xs.length := by
  induction xs with
  | nil => intro s l; rfl
  | cons x xs ih => intro s l; simp [macdLineAux, ih]

lemma macdLine_length (data : List Rat) : (macdLine data).length = data.length - longPeriod := by
  simp [macdLine, macdLineAux_length]

lemma deltas_length (prices : List Rat) : (deltas prices).length = prices.length - 1 := by
  simp [deltas]

/-! ## Configuration (the numeric/flag fields of `BotConfig`, lines 31-62)

Fields that only carry external identities (wallet, token descriptors, the
telegram chat) are out of scope; `quoteRaw` is the raw integer amount of
`quoteAmount`. -/

structure BotConfig where
  useSnipeList : Bool
  maxTokensAtTheTime : Nat
  autoBuyDelay : Nat
  autoSellDelay : Nat
  maxBuyRetries : Nat
  maxSellRetries : Nat
  quoteRaw : Nat
  takeProfit : Nat
  stopLoss : Nat
  trailingStopLoss : Bool
  skipSellingIfLostMoreThan : Nat
  buySlippage : Nat
  sellSlippage : Nat
  priceCheckInterval : Nat
  priceCheckDuration : Nat
  filterCheckInterval : Nat
  filterCheckDuration : Nat
  consecutiveMatchCount : Nat
  deriving DecidableEq

/-! ## EntryGate: `waitForBuySignal` (src/bot.ts lines 201-269) -/

/-- Line 205: `let timesToCheck = (10*60) / 2` - the iteration bound of the
entry polling loop.  It is a hard-coded constant; the configuration is
accepted (the method reads `this.config` for other purposes) but no
configuration field enters the computation. -/
def entryTimesToCheck (_cfg : BotConfig) : Nat := 10 * 60 / 2

/-- Line 260: `await sleep(1000)` - the per-tick sleep of the entry polling
loop in milliseconds, likewise a hard-coded constant. -/
def entrySleepMs (_cfg : BotConfig) : Nat := 1000

/-- Line 207: `let maxSignalWaitTries = 60`. -/
def maxSignalWaitTries : Nat := 60

/-- JavaScript truthiness of a number-or-null value: `null`, `NaN` (both
`none` here) and `0` are falsy (used by `macd.macd && macd.signal` in
line 247 and `!macd.macd` in line 242). -/
def truthy : Option Rat → Bool
  | none => false
  | some q => decide (q ≠ 0)

/-- Comparison `a > b` on number-or-null values; any `null`/`NaN` operand
compares false, as in JavaScript. -/
def optGt : Option Rat → Option Rat → Bool
  | some a, some b => decide (b < a)
  | _, _ => false

/-- Loose equality `v == 0` of a number-or-null value (line 242); `NaN == 0`
is false in JavaScript. -/
def optEqZero : Option Rat → Bool
  | none => false
  | some q => decide (q = 0)

/-- Strict `v > 0` on a number-or-null value. -/
def optGtZero : Option Rat → Bool
  | none => false
  | some q => decide (0 < q)

/-- Strict `v < 30` on a number-or-null value. -/
def optLtThirty : Option Rat → Bool
  | none => false
  | some q => decide (q < 30)

/-- The buy condition of line 247:
`currentRSI > 0 && currentRSI < 30 && macd.macd && macd.signal &&
macd.macd > macd.signal`. -/
def buySignalCond (prices : List Rat) : Bool :=
  optGtZero (calculateRSIv2 prices) && optLtThirty (calculateRSIv2 prices) &&
  truthy (calculateMACDv2 prices).1 && truthy (calculateMACDv2 prices).2 &&
  optGt (calculateMACDv2 prices).1 (calculateMACDv2 prices).2

/-- The early-abort condition of line 242:
`timesChecked >= maxSignalWaitTries && currentRSI == 0 && !macd.macd`. -/
def abortCond (t : Nat) (prices : List Rat) : Bool :=
  decide (maxSignalWaitTries ≤ t) && optEqZero (calculateRSIv2 prices) &&
  !(truthy (calculateMACDv2 prices).1)

/-- Deduplicating append of lines 234-236: a freshly fetched price is pushed
only when it differs from the last stored price. -/
def dedupAppend (l : List Rat) (p : Rat) : List Rat :=
  if l.getLast? = some p then l else l ++ [p]

/-- The polling loop of `waitForBuySignal` (lines 213-266).  `fetch t` is the
price observed at tick `t` (`none` when the fetch throws, in which case the
`catch` of line 261 skips the tick and only `timesChecked` advances).  On a
successful fetch the price is dedup-appended, the abort condition of line
242 returns `false`, the buy condition of line 247 returns `true`, and
otherwise the loop continues while `timesChecked < timesToCheck`. -/
def wfbsGo (fetch : Nat → Option Rat) : Nat → Nat → List Rat → Bool
  | _, 0, _ => false
  | t, fuel + 1, prices =>
    match fetch t with
    | none => wfbsGo fetch (t + 1) fuel prices
    | some p =>
      if abortCond t (dedupAppend prices p) then false
      else if buySignalCond (dedupAppend prices p) then true
      else wfbsGo fetch (t + 1) fuel (dedupAppend prices p)

/-- `Bot.waitForBuySignal` (lines 201-269) as a function of the per-tick
price oracle: starts with an empty price list, zero ticks checked, and the
hard-coded iteration budget. -/
def waitForBuySignal (cfg : BotConfig) (fetch : Nat → Option Rat) : Bool :=
  wfbsGo fetch 0 (entryTimesToCheck cfg) []

/-- Price list accumulated after the first `n` ticks of the loop (the state
of `prices` entering tick `n`). -/
def pricesThrough (fetch : Nat → Option Rat) : Nat → List Rat
  | 0 => []
  | n + 1 =>
    match fetch n with
    | none => pricesThrough fetch n
    | some p => dedupAppend (pricesThrough fetch n) p

/-- Tick `t` executed (the fetch succeeded) and the code's buy condition
held on the prices visible at that tick. -/
def buyTickAt (fetch : Nat → Option Rat) (t : Nat) : Prop :=
  (fetch t).isSome = true ∧ buySignalCond (pricesThrough fetch (t + 1)) = true

/-- Tick `t` executed and the early-abort condition of line 242 held there. -/
def abortTickAt (fetch : Nat → Option Rat) (t : Nat) : Prop :=
  (fetch t).isSome = true ∧ abortCond t (pricesThrough fetch (t + 1)) = true

/-- The condition the specification states for the entry signal: `0 < RSI < 30`
and both MACD values non-null with `macd > signal`.  Unlike `buySignalCond`
(the code), it does not exclude a MACD or signal value that is exactly `0`. -/
def specBuySignalCond (prices : List Rat) : Bool :=
  match calculateRSIv2 prices, calculateMACDv2 prices with
  | some r, (some a, some b) => decide (0 < r ∧ r < 30 ∧ b < a)
  | _, _ => false

/-! ## AdmissionController (semaphore + `sellExecutionCount`)

State visible to the admission check of `Bot.buy` lines 284-292: the
semaphore's current value (`availablePermits`) and `sellExecutionCount`. -/

structure AdmState where
  available : Nat
  sellCount : Nat
  deriving DecidableEq

/-- Line 284-285: `maxTokensAtTheTime - semaphore.getValue() + sellExecutionCount`
(JavaScript number arithmetic, hence integers). -/
def numberOfActionsBeingProcessed (maxTokens : Nat) (st : AdmState) : Int :=
  (maxTokens : Int) - (st.available : Int) + (st.sellCount : Int)

/-- `semaphore.isLocked()`: no permit available. -/
def semaphoreIsLocked (st : AdmState) : Bool := decide (st.available = 0)

/-- The denial condition of line 286:
`semaphore.isLocked() || numberOfActionsBeingProcessed >= maxTokensAtTheTime`. -/
def buyDenied (maxTokens : Nat) (st : AdmState) : Bool :=
  semaphoreIsLocked st ||
  decide ((maxTokens : Int) ≤ numberOfActionsBeingProcessed maxTokens st)

/-- The check of line 286 followed by `await semaphore.acquire()` (line 294):
`none` when the request is denied (early return), otherwise the state with
one permit taken.  No suspension point separates the check from the acquire
in the source, so the pair is modelled as one atomic step. -/
def buyTryAdmit (maxTokens : Nat) (st : AdmState) : Option AdmState :=
  if buyDenied maxTokens st then none
  else some ⟨st.available - 1, st.sellCount⟩

/-! ## ExitMonitor: `waitForSellSignal` (src/bot.ts lines 615-735)

The per-mint stop-loss map `Bot.stopLoss` is modelled as a function from
mint keys to optional raw amounts. -/

def SLMap : Type := String → Option Nat

/-- `Map.set` at a key. -/
def mapSet (m : SLMap) (k : String) (v : Nat) : SLMap :=
  fun q => if q = k then some v else m q

/-- `Map.delete` at a key. -/
def mapDel (m : SLMap) (k : String) : SLMap :=
  fun q => if q = k then none else m q

/-- The empty map. -/
def emptySL : SLMap := fun _ => none

/-- Result of `waitForSellSignal`, tagged with the return site:
`disabled` is the early return of line 617 (a check interval or duration of
zero), `drawdownAbort` the `return false` of line 686, `stopLossTrig` and
`takeProfit` the breaks of lines 712 and 723, `exhausted` the fall-through
`return true` of line 734 after the loop budget is consumed. -/
inductive SellSignalOutcome where
  | disabled
  | drawdownAbort
  | stopLossTrig
  | takeProfit
  | exhausted
  deriving DecidableEq

/-- The boolean actually returned to `Bot.sell`: only a drawdown abort
returns `false`. -/
def sellSignalBool : SellSignalOutcome → Bool
  | .drawdownAbort => false
  | _ => true

/-- Number of iterations of the `do/while` loop of lines 640-732: the loop
body runs while `timesChecked < priceCheckDuration / priceCheckInterval`
(floating-point quotient), i.e. `ceil(duration / interval)` times, and a
`do/while` always runs at least once. -/
def sellTimesToCheck (interval duration : Nat) : Nat :=
  max 1 ((duration + interval - 1) / interval)

/-- The trailing-stop update of lines 655-668: when trailing is enabled,
the candidate floor is `amountOut - floor(amountOut * stopLoss / 100)` (raw
BN arithmetic) and both the local `stopLoss` variable and the map entry are
replaced only when the candidate is strictly greater. -/
def trailingUpdate (cfg : BotConfig) (key : String) (amountOut sl : Nat) (m : SLMap) :
    Nat × SLMap :=
  if cfg.trailingStopLoss then
    if sl < amountOut - amountOut * cfg.stopLoss / 100 then
      (amountOut - amountOut * cfg.stopLoss / 100,
       mapSet m key (amountOut - amountOut * cfg.stopLoss / 100))
    else (sl, m)
  else (sl, m)

/-- The polling loop of lines 640-732.  `oracle t` is the achievable quote
amount (`computeAmountOut`, raw units) observed at tick `t`, `none` when the
fetch throws (the catch of line 727 skips the tick).  Order of checks per
tick matches the source: trailing-stop update (655-668), drawdown abort
(670-688), stop-loss (704-713), take-profit (715-724). -/
def wfssGo (cfg : BotConfig) (key : String) (oracle : Nat → Option Nat) :
    Nat → Nat → Nat → SLMap → SellSignalOutcome × SLMap
  | _, 0, _, m => (.exhausted, m)
  | t, fuel + 1, sl, m =>
    match oracle t with
    | none => wfssGo cfg key oracle (t + 1) fuel sl m
    | some amountOut =>
      let u := trailingUpdate cfg key amountOut sl m
      if 0 < cfg.skipSellingIfLostMoreThan ∧
         amountOut < cfg.quoteRaw * (100 - cfg.skipSellingIfLostMoreThan) / 100 then
        (.drawdownAbort, mapDel u.2 key)
      else if amountOut < u.1 then (.stopLossTrig, mapDel u.2 key)
      else if cfg.quoteRaw + cfg.quoteRaw * cfg.takeProfit / 100 < amountOut then
        (.takeProfit, mapDel u.2 key)
      else wfssGo cfg key oracle (t + 1) fuel u.1 u.2

/-- `Bot.waitForSellSignal` (lines 615-735).  Feature disabled when either
polling parameter is zero (line 616).  Lines 626-634: an absent map entry
for the mint is created with the initial floor
`quoteRaw - floor(quoteRaw * stopLoss / 100)`; an existing entry is reused.
Returns the tagged outcome together with the final map. -/
def waitForSellSignal (cfg : BotConfig) (key : String) (oracle : Nat → Option Nat)
    (m : SLMap) : SellSignalOutcome × SLMap :=
  if cfg.priceCheckDuration = 0 ∨ cfg.priceCheckInterval = 0 then (.disabled, m)
  else
    match m key with
    | some v =>
      wfssGo cfg key oracle 0 (sellTimesToCheck cfg.priceCheckInterval cfg.priceCheckDuration) v m
    | none =>
      wfssGo cfg key oracle 0 (sellTimesToCheck cfg.priceCheckInterval cfg.priceCheckDuration)
        (cfg.quoteRaw - cfg.quoteRaw * cfg.stopLoss / 100)
        (mapSet m key (cfg.quoteRaw - cfg.quoteRaw * cfg.stopLoss / 100))

/-! ## ExecutionPipeline: `Bot.buy` (src/bot.ts lines 271-377) -/

/-- Exit site of one `buy` invocation. -/
inductive BuyExit where
  | snipeSkip
  | denied
  | filteredOut
  | noSignal
  | deadline
  | confirmedFill
  | retriesExhausted
  | threw
  deriving DecidableEq

/-- Oracle for the externally determined events of one `buy` run.
`Except.error ()` models a thrown exception at that step; `swapR i` is the
outcome of the swap of retry attempt `i`; `elapsedAt i` the wall-clock
milliseconds elapsed when attempt `i` starts. -/
structure BuyOracle where
  inSnipeList : Bool
  marketFetch : Except Unit Unit
  filterMatchR : Except Unit Bool
  buySignalR : Except Unit Bool
  swapR : Nat → Except Unit Bool
  elapsedAt : Nat → Nat

/-- Trace of one `buy` invocation: exit site, number of semaphore acquires
and releases, the admission state while the body runs, and the final state. -/
structure BuyRun where
  exit : BuyExit
  acquired : Nat
  released : Nat
  during : AdmState
  final : AdmState

/-- The retry loop of lines 320-371: per attempt, the 10-second deadline
check of line 323 (early return), then the swap; a confirmed result breaks,
an unconfirmed result or a thrown exception (caught by the per-attempt
`catch` of line 368) continues with the next attempt. -/
def buyRetryLoop (o : BuyOracle) : Nat → Nat → BuyExit
  | _, 0 => .retriesExhausted
  | i, fuel + 1 =>
    if 10000 < o.elapsedAt i then .deadline
    else
      match o.swapR i with
      | .error _ => buyRetryLoop o (i + 1) fuel
      | .ok true => .confirmedFill
      | .ok false => buyRetryLoop o (i + 1) fuel

/-- The `try` body of lines 296-371: market/ata resolution, the filter gate
(skipped in snipe-list mode, lines 303-310), the buy signal (lines 312-317),
then the retry loop.  A throw in any step lands in the outer catch of line
372 (`.threw`), which logs and falls through to the `finally`. -/
def buyBody (cfg : BotConfig) (o : BuyOracle) : BuyExit :=
  match o.marketFetch with
  | .error _ => .threw
  | .ok _ =>
    match (if cfg.useSnipeList then (Except.ok true : Except Unit Bool) else o.filterMatchR) with
    | .error _ => .threw
    | .ok false => .filteredOut
    | .ok true =>
      match o.buySignalR with
      | .error _ => .threw
      | .ok false => .noSignal
      | .ok true => buyRetryLoop o 0 cfg.maxBuyRetries

/-- `Bot.buy` (lines 271-377): snipe-list precheck (line 274), admission
check and acquire (lines 284-294), the guarded body, and the `finally` of
line 374 releasing the permit on every path out of the body. -/
def buy (cfg : BotConfig) (o : BuyOracle) (st : AdmState) : BuyRun :=
  if cfg.useSnipeList && !o.inSnipeList then ⟨.snipeSkip, 0, 0, st, st⟩
  else
    match buyTryAdmit cfg.maxTokensAtTheTime st with
    | none => ⟨.denied, 0, 0, st, st⟩
    | some st2 => ⟨buyBody cfg o, 1, 1, st2, ⟨st2.available + 1, st2.sellCount⟩⟩

/-! ## ExecutionPipeline: `Bot.sell` (src/bot.ts lines 379-499) -/

/-- Exit site of one `sell` invocation. -/
inductive SellExit where
  | noPool
  | emptyBalance
  | vetoed
  | confirmedFill
  | retriesExhausted
  | threw
  deriving DecidableEq

/-- Oracle for one `sell` run.  `poolData` is the pool-cache lookup of line
385 (`ok false` = not found); `signalR` the outcome of the single
`waitForSellSignal` call; `swapR i` the swap outcome of attempt `i`. -/
structure SellOracle where
  poolData : Except Unit Bool
  balanceZero : Bool
  marketFetch : Except Unit Unit
  signalR : Except Unit Bool
  swapR : Nat → Except Unit Bool

/-- Trace of one `sell` invocation: exit site, list of retry-attempt indices
at which `waitForSellSignal` was invoked, the admission state while the body
runs (`sellExecutionCount` incremented, line 380), and the final state after
the `finally` of line 496 decrements it. -/
structure SellRun where
  exit : SellExit
  sigAttempts : List Nat
  during : AdmState
  final : AdmState

/-- The retry loop of lines 408-493.  `if (i < 1)` (line 410) evaluates the
sell signal only on the first attempt; a `false` signal returns (`.vetoed`),
a throw from the signal or the swap is caught by the per-attempt catch of
line 490 and the loop continues. -/
def sellRetryLoop (o : SellOracle) : Nat → Nat → SellExit × List Nat
  | _, 0 => (.retriesExhausted, [])
  | i, fuel + 1 =>
    if i < 1 then
      match o.signalR with
      | .error _ =>
        ((sellRetryLoop o (i + 1) fuel).1, i :: (sellRetryLoop o (i + 1) fuel).2)
      | .ok false => (.vetoed, [i])
      | .ok true =>
        match o.swapR i with
        | .error _ => ((sellRetryLoop o (i + 1) fuel).1, i :: (sellRetryLoop o (i + 1) fuel).2)
        | .ok true => (.confirmedFill, [i])
        | .ok false => ((sellRetryLoop o (i + 1) fuel).1, i :: (sellRetryLoop o (i + 1) fuel).2)
    else
      match o.swapR i with
      | .error _ => sellRetryLoop o (i + 1) fuel
      | .ok true => (.confirmedFill, [])
      | .ok false => sellRetryLoop o (i + 1) fuel

/-- The `try` body of lines 382-493: pool lookup (a missing pool returns,
line 387), zero-balance return (line 395), market lookup (line 405), then
the retry loop.  Throws land in the outer catch of line 494. -/
def sellBody (cfg : BotConfig) (o : SellOracle) : SellExit × List Nat :=
  match o.poolData with
  | .error _ => (.threw, [])
  | .ok false => (.noPool, [])
  | .ok true =>
    if o.balanceZero then (.emptyBalance, [])
    else
      match o.marketFetch with
      | .error _ => (.threw, [])
      | .ok _ => sellRetryLoop o 0 cfg.maxSellRetries

/-- `Bot.sell` (lines 379-499): `sellExecutionCount++` before the `try`
(line 380, unconditional - there is no admission check on the sell path),
the guarded body, and the `finally` of line 496 decrementing the counter. -/
def sell (cfg : BotConfig) (o : SellOracle) (st : AdmState) : SellRun :=
  ⟨(sellBody cfg o).1, (sellBody cfg o).2,
   ⟨st.available, st.sellCount + 1⟩,
   ⟨st.available, st.sellCount + 1 - 1⟩⟩

/-! ## Concrete fixtures used by witnesses and counterexamples -/

/-- A concrete configuration: capacity 1, one buy/sell retry, quote amount
100 raw units, take-profit 20%, stop-loss 10%, trailing disabled, no
drawdown threshold, 1000 ms polling. -/
def cfg1 : BotConfig :=
  { useSnipeList := false, maxTokensAtTheTime := 1, autoBuyDelay := 0, autoSellDelay := 0,
    maxBuyRetries := 1, maxSellRetries := 1, quoteRaw := 100, takeProfit := 20, stopLoss := 10,
    trailingStopLoss := false, skipSellingIfLostMoreThan := 0, buySlippage := 10,
    sellSlippage := 10, priceCheckInterval := 1000, priceCheckDuration := 1000,
    filterCheckInterval := 1000, filterCheckDuration := 1000, consecutiveMatchCount := 1 }

/-! ## C10: RSI on short inputs -/

/-- C10: for every price sequence with fewer than 15 samples,
`calculateRSIv2` returns exactly `0` - the Wilder loop never executes and
the initial `cRSI = 0` of line 182 is returned. -/
theorem rsi_short_input_zero (prices : List Rat) (h : prices.length < 15) :
    calculateRSIv2 prices = some 0 := by
  have h1 : (deltas prices).drop rsiPeriod = [] := by
    apply List.drop_eq_nil_of_le
    rw [deltas_length]
    simp [rsiPeriod]
    omega
  simp [calculateRSIv2, h1, rsiLoop]

/-- Witness for C10 at the three-sample sequence `[1, 2, 3]`. -/
theorem rsi_short_input_zero_witness : calculateRSIv2 [(1 : Rat), 2, 3] = some 0 :=
  rsi_short_input_zero [(1 : Rat), 2, 3] (by simp)

/-! ## C8: the MACD length guard -/

/-- C8 (amended): `calculateMACDv2` returns the null pair for every input
shorter than `longPeriod + signalPeriod - 1 = 34` samples; for inputs of at
least 35 samples the MACD line has at least `signalPeriod` entries (so the
nine-element signal seed of lines 137-141 stays in bounds) and both returned
values are non-null.  At exactly 34 samples the guard passes but the seed
reads one element past the 8-entry MACD line - see the counterexample. -/
theorem macd_length_guard (data : List Rat) :
    (data.length < 34 → calculateMACDv2 data = (none, none)) ∧
    (35 ≤ data.length →
      signalPeriod ≤ (macdLine data).length ∧
      ∃ a b, calculateMACDv2 data = (some a, some b)) := by
  constructor
  · intro h
    have hlt : data.length < longPeriod + signalPeriod - 1 := by
      simp only [longPeriod, signalPeriod]
      omega
    simp [calculateMACDv2, hlt]
  · intro h
    have hml : (macdLine data).length = data.length - 26 := by
      simpa [longPeriod] using macdLine_length data
    have h9 : signalPeriod ≤ (macdLine data).length := by
      simp only [signalPeriod]
      omega
    refine ⟨h9, ?_⟩
    have hnotlt : ¬ data.length < longPeriod + signalPeriod - 1 := by
      simp only [longPeriod, signalPeriod]
      omega
    have hne : (macdLine data) ≠ [] := by
      intro e
      rw [e] at hml
      simp at hml
      omega
    obtain ⟨a, ha⟩ := Option.isSome_iff_exists.mp (List.getLast?_isSome.mpr hne)
    refine ⟨a, ?_, ?_⟩
    · exact ((macdLine data).drop signalPeriod).foldl
        (emaStep (2 / ((signalPeriod : Rat) + 1)))
        (((macdLine data).take signalPeriod).sum / (signalPeriod : Rat))
    · simp [calculateMACDv2, hnotlt, ha, signalLast, signalSeed, h9]

/-- Witness for C8: a 33-sample input yields the null pair, and at 35
samples the MACD line is long enough for the signal seed. -/
theorem macd_length_guard_witness :
    calculateMACDv2 (List.replicate 33 (0 : Rat)) = (none, none) ∧
    signalPeriod ≤ (macdLine (List.replicate 35 (0 : Rat))).length :=
  ⟨(macd_length_guard (List.replicate 33 (0 : Rat))).1 (by simp),
   ((macd_length_guard (List.replicate 35 (0 : Rat))).2 (by simp)).1⟩

/-- Counterexample for C8 as stated: at exactly 34 samples (here 34 zeros)
the guard `data.length < 34` passes, yet the MACD line has only 8 entries,
so the signal-seed loop (which always reads indices 0..8) reads out of
bounds and the returned signal value is the `NaN` modelled by `none` - not
a well-defined value. -/
theorem macd_boundary_oob_cex :
    (List.replicate 34 (0 : Rat)).length = 34 ∧
    (macdLine (List.replicate 34 (0 : Rat))).length = 8 ∧
    (calculateMACDv2 (List.replicate 34 (0 : Rat))).2 = none := by
  have hlen : (List.replicate 34 (0 : Rat)).length = 34 := by simp
  have h8 : (macdLine (List.replicate 34 (0 : Rat))).length = 8 := by
    rw [macdLine_length, hlen]
    simp [longPeriod]
  have hseed : signalSeed (macdLine (List.replicate 34 (0 : Rat))) = none := by
    unfold signalSeed
    rw [h8]
    simp [signalPeriod]
  have hnotlt : ¬ (List.replicate 34 (0 : Rat)).length < longPeriod + signalPeriod - 1 := by
    rw [hlen]
    simp [longPeriod, signalPeriod]
  have hcalc : calculateMACDv2 (List.replicate 34 (0 : Rat)) =
      ((macdLine (List.replicate 34 (0 : Rat))).getLast?,
       signalLast (macdLine (List.replicate 34 (0 : Rat)))) := by
    unfold calculateMACDv2
    rw [if_neg hnotlt]
  refine ⟨hlen, h8, ?_⟩
  rw [hcalc]
  show signalLast (macdLine (List.replicate 34 (0 : Rat))) = none
  unfold signalLast
  rw [hseed]
  rfl

/-! ## C2: the buy pipeline releases its permit on every exit path -/

/-- C2: every `buy` invocation releases exactly as many permits as it
acquires (at most one), on every exit path - snipe-list skip, denial,
filter rejection, missing buy signal, deadline, confirmed fill, retries
exhausted, or an exception caught by the outer catch - and the admission
state after the `finally` equals the state before the call.  The model is a
total function, reflecting that `buy` itself returns normally rather than
propagating exceptions. -/
theorem buy_releases_permit_always (cfg : BotConfig) (o : BuyOracle) (st : AdmState) :
    (buy cfg o st).released = (buy cfg o st).acquired ∧
    (buy cfg o st).acquired ≤ 1 ∧
    (buy cfg o st).final = st := by
  cases hb : (cfg.useSnipeList && !o.inSnipeList) with
  | true => simp [buy, hb]
  | false =>
    cases hadm : buyTryAdmit cfg.maxTokensAtTheTime st with
    | none => simp [buy, hb, hadm]
    | some st2 =>
      have hden : buyDenied cfg.maxTokensAtTheTime st = false := by
        cases hv : buyDenied cfg.maxTokensAtTheTime st
        · rfl
        · simp [buyTryAdmit, hv] at hadm
      have hav : st.available ≠ 0 := by
        simp [buyDenied, semaphoreIsLocked] at hden
        exact hden.1
      have hst2 : st2 = ⟨st.available - 1, st.sellCount⟩ := by
        simp [buyTryAdmit, hden] at hadm
        exact hadm.symm
      cases st with
      | mk av sc =>
        simp only [hst2] at hadm
        simp [buy, hb, hadm, AdmState.mk.injEq]
        have : av ≠ 0 := by simpa using hav
        omega

/-! ## C1: admission control gates only the buy entry point -/

/-- Oracle fixture: a fully successful buy environment. -/
def oBuy1 : BuyOracle :=
  { inSnipeList := true, marketFetch := .ok (), filterMatchR := .ok true,
    buySignalR := .ok true, swapR := fun _ => .ok true, elapsedAt := fun _ => 0 }

/-- Oracle fixture: a fully successful sell environment. -/
def oSell1 : SellOracle :=
  { poolData := .ok true, balanceZero := false, marketFetch := .ok (),
    signalR := .ok true, swapR := fun _ => .ok true }

/-- C1 (amended): the denial condition of line 286 gates the buy entry
point - a denied buy acquires nothing, trades nothing and leaves the
admission state untouched - and an admitted buy keeps
`(capacity - availablePermits) + activeSellCount` at most the capacity at
admission time.  The sell entry point is not gated (see the
counterexample). -/
theorem admission_gate_buy_only :
    (∀ (cfg : BotConfig) (o : BuyOracle) (st : AdmState),
        buyDenied cfg.maxTokensAtTheTime st = true →
        (buy cfg o st).acquired = 0 ∧ (buy cfg o st).exit ≠ BuyExit.confirmedFill ∧
        (buy cfg o st).during = st) ∧
    (∀ (maxTokens : Nat) (st st2 : AdmState),
        buyTryAdmit maxTokens st = some st2 →
        numberOfActionsBeingProcessed maxTokens st2 ≤ (maxTokens : Int)) := by
  constructor
  · intro cfg o st h
    cases hb : (cfg.useSnipeList && !o.inSnipeList) with
    | true => simp [buy, hb]
    | false => simp [buy, hb, buyTryAdmit, h]
  · intro maxTokens st st2 h
    cases hv : buyDenied maxTokens st with
    | true => simp [buyTryAdmit, hv] at h
    | false =>
      have hst2 : st2 = ⟨st.available - 1, st.sellCount⟩ := by
        simp [buyTryAdmit, hv] at h
        exact h.symm
      simp [buyDenied, semaphoreIsLocked, numberOfActionsBeingProcessed] at hv
      subst hst2
      simp only [numberOfActionsBeingProcessed]
      omega

/-- Witness for C1: with capacity 1 and the only permit held (state
`⟨0, 0⟩`, reachable by admitting one buy from `⟨1, 0⟩`), a further buy is
denied and trades nothing; and the admitted step respected the bound. -/
theorem admission_gate_buy_only_witness :
    ((buy cfg1 oBuy1 ⟨0, 0⟩).acquired = 0 ∧
      (buy cfg1 oBuy1 ⟨0, 0⟩).exit ≠ BuyExit.confirmedFill ∧
      (buy cfg1 oBuy1 ⟨0, 0⟩).during = ⟨0, 0⟩) ∧
    numberOfActionsBeingProcessed 1 ⟨0, 0⟩ ≤ (1 : Int) :=
  ⟨admission_gate_buy_only.1 cfg1 oBuy1 ⟨0, 0⟩ (by decide),
   admission_gate_buy_only.2 1 ⟨1, 0⟩ ⟨0, 0⟩ (by decide)⟩

/-- Counterexample for C1 as stated: with capacity 1 and one buy in flight
(state `⟨0, 0⟩`, reached by admitting a buy from the initial `⟨1, 0⟩`), the
controller is saturated - a buy request would be denied - yet a sell
request is not denied: `Bot.sell` has no admission check, proceeds to a
confirmed fill, and while it runs
`(capacity - availablePermits) + activeSellCount = 2 > 1` operations are in
flight. -/
theorem admission_gate_cex :
    cfg1.maxTokensAtTheTime = 1 ∧
    buyTryAdmit 1 ⟨1, 0⟩ = some ⟨0, 0⟩ ∧
    buyDenied 1 ⟨0, 0⟩ = true ∧
    (sell cfg1 oSell1 ⟨0, 0⟩).exit = SellExit.confirmedFill ∧
    numberOfActionsBeingProcessed 1 (sell cfg1 oSell1 ⟨0, 0⟩).during = 2 := by
  decide

/-! ## C3: the sell signal is evaluated only on the first retry attempt -/

lemma sellRetryLoop_later_attempts (o : SellOracle) :
    ∀ fuel i, 1 ≤ i → (sellRetryLoop o i fuel).2 = [] := by
  intro fuel
  induction fuel with
  | zero => intro i h; rfl
  | succ fuel ih =>
    intro i h
    have hnot : ¬ i < 1 := by omega
    cases hsw : o.swapR i with
    | error e => simp [sellRetryLoop, hnot, hsw]; exact ih (i + 1) (by omega)
    | ok b =>
      cases b with
      | true => simp [sellRetryLoop, hnot, hsw]
      | false => simp [sellRetryLoop, hnot, hsw]; exact ih (i + 1) (by omega)

lemma sellRetryLoop_start (o : SellOracle) (fuel : Nat) :
    (sellRetryLoop o 0 (fuel + 1)).2 = [0] := by
  have h01 : (0 : Nat) < 1 := by omega
  cases hsig : o.signalR with
  | error e => simp [sellRetryLoop, h01, hsig, sellRetryLoop_later_attempts o fuel 1 (by omega)]
  | ok b =>
    cases b with
    | false => simp [sellRetryLoop, h01, hsig]
    | true =>
      cases hsw : o.swapR 0 with
      | error e =>
        simp [sellRetryLoop, h01, hsig, hsw, sellRetryLoop_later_attempts o fuel 1 (by omega)]
      | ok c =>
        cases c with
        | true => simp [sellRetryLoop, h01, hsig, hsw]
        | false =>
          simp [sellRetryLoop, h01, hsig, hsw, sellRetryLoop_later_attempts o fuel 1 (by omega)]

/-- C3 (amended): within one `sell` invocation, `waitForSellSignal` is
invoked at most once, and only on retry attempt 0 (line 410: `if (i < 1)`);
it is invoked exactly once when additionally the pool data is found, the
balance is non-zero, the market lookup does not throw, and
`maxSellRetries >= 1` - the preconditions under which the retry loop is
reached at all. -/
theorem sell_signal_single_evaluation (cfg : BotConfig) (o : SellOracle) (st : AdmState) :
    ((sell cfg o st).sigAttempts = [] ∨ (sell cfg o st).sigAttempts = [0]) ∧
    (o.poolData = Except.ok true → o.balanceZero = false → o.marketFetch = Except.ok () →
      1 ≤ cfg.maxSellRetries → (sell cfg o st).sigAttempts = [0]) := by
  constructor
  · show (sellBody cfg o).2 = [] ∨ (sellBody cfg o).2 = [0]
    cases hp : o.poolData with
    | error e => simp [sellBody, hp]
    | ok b =>
      cases b with
      | false => simp [sellBody, hp]
      | true =>
        cases hz : o.balanceZero with
        | true => simp [sellBody, hp, hz]
        | false =>
          cases hm : o.marketFetch with
          | error e => simp [sellBody, hp, hz, hm]
          | ok u =>
            cases hr : cfg.maxSellRetries with
            | zero => simp [sellBody, hp, hz, hm, hr, sellRetryLoop]
            | succ fuel =>
              right
              simp only [sellBody, hp, hz, hm, hr]
              simpa using sellRetryLoop_start o fuel
  · intro hp hz hm hr
    show (sellBody cfg o).2 = [0]
    obtain ⟨fuel, hf⟩ : ∃ fuel, cfg.maxSellRetries = fuel + 1 := by
      cases hk : cfg.maxSellRetries with
      | zero => omega
      | succ k => exact ⟨k, rfl⟩
    simp only [sellBody, hp, hz, hm, hf]
    simpa using sellRetryLoop_start o fuel

/-- Witness for C3 at a concrete successful sell run. -/
theorem sell_signal_single_evaluation_witness :
    (sell cfg1 oSell1 ⟨1, 0⟩).sigAttempts = [0] :=
  (sell_signal_single_evaluation cfg1 oSell1 ⟨1, 0⟩).2 rfl rfl rfl (by decide)

/-- Oracle fixture: pool data missing from the cache. -/
def oNoPool : SellOracle :=
  { poolData := .ok false, balanceZero := false, marketFetch := .ok (),
    signalR := .ok true, swapR := fun _ => .ok true }

/-- Counterexample for C3 as stated: `maxSellRetries = 1` and a non-zero
balance, yet the exit-signal evaluation runs zero times - the pool-data
lookup of line 385 finds nothing and `sell` returns before the retry loop,
so "exactly once when maxSellRetries >= 1 and the balance is non-zero" does
not hold without the pool/market preconditions. -/
theorem sell_signal_missing_pool_cex :
    cfg1.maxSellRetries = 1 ∧ oNoPool.balanceZero = false ∧
    (sell cfg1 oNoPool ⟨1, 0⟩).sigAttempts = [] ∧
    (sell cfg1 oNoPool ⟨1, 0⟩).exit = SellExit.noPool := by
  decide

/-! ## C4: the stop-loss map entry is deleted on triggers, retained on
loop exhaustion -/

lemma wfssGo_trigger_deletes (cfg : BotConfig) (key : String) (oracle : Nat → Option Nat) :
    ∀ fuel t sl m,
      ((wfssGo cfg key oracle t fuel sl m).1 = SellSignalOutcome.stopLossTrig ∨
       (wfssGo cfg key oracle t fuel sl m).1 = SellSignalOutcome.takeProfit ∨
       (wfssGo cfg key oracle t fuel sl m).1 = SellSignalOutcome.drawdownAbort) →
      (wfssGo cfg key oracle t fuel sl m).2 key = none := by
  intro fuel
  induction fuel with
  | zero => intro t sl m h; simp [wfssGo] at h
  | succ fuel ih =>
    intro t sl m h
    cases ho : oracle t with
    | none =>
      simp only [wfssGo, ho] at h ⊢
      exact ih (t + 1) sl m h
    | some a =>
      simp only [wfssGo, ho] at h ⊢
      by_cases h1 : 0 < cfg.skipSellingIfLostMoreThan ∧
          a < cfg.quoteRaw * (100 - cfg.skipSellingIfLostMoreThan) / 100
      · rw [if_pos h1] at h ⊢
        simp [mapDel]
      · rw [if_neg h1] at h ⊢
        by_cases h2 : a < (trailingUpdate cfg key a sl m).1
        · rw [if_pos h2] at h ⊢
          simp [mapDel]
        · rw [if_neg h2] at h ⊢
          by_cases h3 : cfg.quoteRaw + cfg.quoteRaw * cfg.takeProfit / 100 < a
          · rw [if_pos h3] at h ⊢
            simp [mapDel]
          · rw [if_neg h3] at h ⊢
            exact ih (t + 1) _ _ h

/-- C4 (amended): whenever `waitForSellSignal` ends by a stop-loss trigger,
a take-profit trigger, or a drawdown abort, the stop-loss map entry of the
monitored mint is deleted (lines 705, 716, 685).  When the loop instead
exhausts its iteration budget the entry is NOT deleted - see the
counterexample. -/
theorem stoploss_entry_deleted_on_trigger (cfg : BotConfig) (key : String)
    (oracle : Nat → Option Nat) (m : SLMap)
    (h : (waitForSellSignal cfg key oracle m).1 = SellSignalOutcome.stopLossTrig ∨
         (waitForSellSignal cfg key oracle m).1 = SellSignalOutcome.takeProfit ∨
         (waitForSellSignal cfg key oracle m).1 = SellSignalOutcome.drawdownAbort) :
    (waitForSellSignal cfg key oracle m).2 key = none := by
  unfold waitForSellSignal at h ⊢
  by_cases hd : cfg.priceCheckDuration = 0 ∨ cfg.priceCheckInterval = 0
  · rw [if_pos hd] at h
    rcases h with h | h | h <;> simp at h
  · rw [if_neg hd] at h ⊢
    cases hk : m key with
    | some v =>
      simp only [hk] at h ⊢
      exact wfssGo_trigger_deletes cfg key oracle _ 0 v m h
    | none =>
      simp only [hk] at h ⊢
      exact wfssGo_trigger_deletes cfg key oracle _ 0 _ _ h

/-- Oracle fixture: achievable amount 50, below the initial floor 90. -/
def oracleSL : Nat → Option Nat := fun _ => some 50

/-- Witness for C4 at a concrete stop-loss trigger (initial floor 90,
observed amount 50). -/
theorem stoploss_entry_deleted_on_trigger_witness :
    (waitForSellSignal cfg1 "mint" oracleSL emptySL).2 "mint" = none :=
  stoploss_entry_deleted_on_trigger cfg1 "mint" oracleSL emptySL (Or.inl (by decide))

/-- Oracle fixture: achievable amount 100, between the floor 90 and the
take-profit target 120, so no condition ever triggers. -/
def oracleHold : Nat → Option Nat := fun _ => some 100

/-- Counterexample for C4 as stated: when the monitoring loop exhausts its
iteration budget (here one tick, amount 100 strictly between the floor 90
and the target 120) the function returns the default sell signal `true` via
line 734, but the map entry created for the mint is still present
afterwards - nothing on that path deletes it. -/
theorem stoploss_entry_retained_on_exhaustion_cex :
    (waitForSellSignal cfg1 "mint" oracleHold emptySL).1 = SellSignalOutcome.exhausted ∧
    sellSignalBool (waitForSellSignal cfg1 "mint" oracleHold emptySL).1 = true ∧
    (waitForSellSignal cfg1 "mint" oracleHold emptySL).2 "mint" = some 90 := by
  decide

/-! ## C5: the trailing stop-loss floor never decreases -/

lemma trailingUpdate_sync (cfg : BotConfig) (key : String) (a sl : Nat) (m : SLMap)
    (h : m key = some sl) :
    (trailingUpdate cfg key a sl m).2 key = some (trailingUpdate cfg key a sl m).1 ∧
    sl ≤ (trailingUpdate cfg key a sl m).1 := by
  unfold trailingUpdate
  cases ht : cfg.trailingStopLoss with
  | false => simp [h]
  | true =>
    by_cases hlt : sl < a - a * cfg.stopLoss / 100
    · simp [hlt, mapSet]
      omega
    · simp [hlt, h]

lemma wfssGo_exhausted_floor_mono (cfg : BotConfig) (key : String) (oracle : Nat → Option Nat) :
    ∀ fuel t sl m, m key = some sl →
      (wfssGo cfg key oracle t fuel sl m).1 = SellSignalOutcome.exhausted →
      ∃ v, sl ≤ v ∧ (wfssGo cfg key oracle t fuel sl m).2 key = some v := by
  intro fuel
  induction fuel with
  | zero =>
    intro t sl m hm _
    exact ⟨sl, le_refl sl, hm⟩
  | succ fuel ih =>
    intro t sl m hm hex
    cases ho : oracle t with
    | none =>
      simp only [wfssGo, ho] at hex ⊢
      exact ih (t + 1) sl m hm hex
    | some a =>
      simp only [wfssGo, ho] at hex ⊢
      by_cases h1 : 0 < cfg.skipSellingIfLostMoreThan ∧
          a < cfg.quoteRaw * (100 - cfg.skipSellingIfLostMoreThan) / 100
      · rw [if_pos h1] at hex
        simp at hex
      · rw [if_neg h1] at hex ⊢
        by_cases h2 : a < (trailingUpdate cfg key a sl m).1
        · rw [if_pos h2] at hex
          simp at hex
        · rw [if_neg h2] at hex ⊢
          by_cases h3 : cfg.quoteRaw + cfg.quoteRaw * cfg.takeProfit / 100 < a
          · rw [if_pos h3] at hex
            simp at hex
          · rw [if_neg h3] at hex ⊢
            obtain ⟨hsync, hle⟩ := trailingUpdate_sync cfg key a sl m hm
            obtain ⟨v, hv1, hv2⟩ := ih (t + 1) _ _ hsync hex
            exact ⟨v, le_trans hle hv1, hv2⟩

/-- C5: while `trailingStopLoss` is enabled the stored floor is replaced
only by the candidate `amountOut - floor(amountOut * stopLoss / 100)` and
only when that candidate is strictly greater (lines 660-667), so a tick
never lowers it; and across a whole monitoring run that ends by exhausting
its budget (the only outcome that keeps the entry alive) the stored floor
never decreases below its starting value. -/
theorem trailing_stoploss_monotone :
    (∀ (cfg : BotConfig) (key : String) (a sl : Nat) (m : SLMap),
        sl ≤ (trailingUpdate cfg key a sl m).1 ∧
        ((trailingUpdate cfg key a sl m).2 key = m key ∨
          (sl < a - a * cfg.stopLoss / 100 ∧
           (trailingUpdate cfg key a sl m).2 key = some (a - a * cfg.stopLoss / 100)))) ∧
    (∀ (cfg : BotConfig) (key : String) (oracle : Nat → Option Nat)
        (t fuel sl : Nat) (m : SLMap),
        m key = some sl →
        (wfssGo cfg key oracle t fuel sl m).1 = SellSignalOutcome.exhausted →
        (wfssGo cfg key oracle t fuel sl m).2 key ≠ none ∧
        sl ≤ ((wfssGo cfg key oracle t fuel sl m).2 key).getD 0) := by
  constructor
  · intro cfg key a sl m
    unfold trailingUpdate
    cases ht : cfg.trailingStopLoss with
    | false => simp
    | true =>
      by_cases hlt : sl < a - a * cfg.stopLoss / 100
      · simp [hlt, mapSet]
        omega
      · simp [hlt]
  · intro cfg key oracle t fuel sl m hm hex
    obtain ⟨v, hv1, hv2⟩ := wfssGo_exhausted_floor_mono cfg key oracle fuel t sl m hm hex
    rw [hv2]
    exact ⟨by simp, by simpa using hv1⟩

/-- Configuration fixture with the trailing stop enabled. -/
def cfg5 : BotConfig := { cfg1 with trailingStopLoss := true }

/-- Oracle fixture: amount 100 then 110, both inside the hold band. -/
def oracle5 : Nat → Option Nat := fun t => if t = 0 then some 100 else some 110

/-- Map fixture holding the floor 90 for key `k`. -/
def m5 : SLMap := mapSet emptySL "k" 90

/-- Witness for C5: a two-tick run (amounts 100 then 110, trailing enabled)
exhausts its budget with the stored floor ratcheted from 90 up to 99, never
below the start. -/
theorem trailing_stoploss_monotone_witness :
    (wfssGo cfg5 "k" oracle5 0 2 90 m5).2 "k" ≠ none ∧
    90 ≤ ((wfssGo cfg5 "k" oracle5 0 2 90 m5).2 "k").getD 0 :=
  trailing_stoploss_monotone.2 cfg5 "k" oracle5 0 2 90 m5 (by decide) (by decide)

/-! ## C6: the drawdown abort vetoes the sell and clears the entry -/

/-- C6: when a drawdown threshold is configured
(`skipSellingIfLostMoreThan > 0`) and the first observed achievable amount
is below `floor(quoteRaw * (100 - threshold) / 100)`, `waitForSellSignal`
deletes the mint's stop-loss entry and returns `false` (lines 670-688).
No hypothesis mentions the stop-loss floor: the veto fires even when the
amount is also below the floor, because the drawdown check of line 670
precedes the stop-loss check of line 704 - the claimed precedence. -/
theorem drawdown_abort_vetoes_sell (cfg : BotConfig) (key : String)
    (oracle : Nat → Option Nat) (m : SLMap) (a : Nat)
    (hi : cfg.priceCheckInterval ≠ 0) (hd : cfg.priceCheckDuration ≠ 0)
    (hskip : 0 < cfg.skipSellingIfLostMoreThan)
    (hfetch : oracle 0 = some a)
    (hlow : a < cfg.quoteRaw * (100 - cfg.skipSellingIfLostMoreThan) / 100) :
    (waitForSellSignal cfg key oracle m).1 = SellSignalOutcome.drawdownAbort ∧
    sellSignalBool (waitForSellSignal cfg key oracle m).1 = false ∧
    (waitForSellSignal cfg key oracle m).2 key = none := by
  have hnot : ¬ (cfg.priceCheckDuration = 0 ∨ cfg.priceCheckInterval = 0) := by
    push_neg
    exact ⟨hd, hi⟩
  obtain ⟨k, hk⟩ : ∃ k,
      sellTimesToCheck cfg.priceCheckInterval cfg.priceCheckDuration = k + 1 := by
    have h1 : 1 ≤ sellTimesToCheck cfg.priceCheckInterval cfg.priceCheckDuration :=
      le_max_left 1 _
    exact ⟨sellTimesToCheck cfg.priceCheckInterval cfg.priceCheckDuration - 1, by omega⟩
  have hstep : ∀ sl (m2 : SLMap),
      wfssGo cfg key oracle 0 (k + 1) sl m2 =
        (SellSignalOutcome.drawdownAbort, mapDel (trailingUpdate cfg key a sl m2).2 key) := by
    intro sl m2
    simp only [wfssGo, hfetch]
    rw [if_pos ⟨hskip, hlow⟩]
  unfold waitForSellSignal
  rw [if_neg hnot]
  cases hm : m key with
  | some v =>
    simp only [hm, hk, hstep]
    simp [sellSignalBool, mapDel]
  | none =>
    simp only [hm, hk, hstep]
    simp [sellSignalBool, mapDel]

/-- Configuration fixture: drawdown abort at 50%. -/
def cfg6 : BotConfig := { cfg1 with skipSellingIfLostMoreThan := 50 }

/-- Oracle fixture: amount 40, below both the 50 drawdown threshold and the
90 stop-loss floor. -/
def oracle6 : Nat → Option Nat := fun _ => some 40

/-- Witness for C6, the claim's scenario at raw scale 100: threshold 50%,
initial 100, observed 40 (below the threshold 50 AND below the stop-loss
floor 90) - the run aborts with a veto, not a stop-loss sell, and the
entry is cleared. -/
theorem drawdown_abort_vetoes_sell_witness :
    (waitForSellSignal cfg6 "mint" oracle6 emptySL).1 = SellSignalOutcome.drawdownAbort ∧
    sellSignalBool (waitForSellSignal cfg6 "mint" oracle6 emptySL).1 = false ∧
    (waitForSellSignal cfg6 "mint" oracle6 emptySL).2 "mint" = none :=
  drawdown_abort_vetoes_sell cfg6 "mint" oracle6 emptySL 40
    (by decide) (by decide) (by decide) rfl (by decide)

/-! ## C9: the entry-gate polling parameters are hard-coded -/

/-- C9 (amended): the entry gate polls with a hard-coded budget - 300
iterations (`(10*60)/2`, line 205) at a 1000 ms sleep (line 260) - for
EVERY configuration; no configuration field enters the entry loop bounds. -/
theorem entry_polling_hardcoded (cfg : BotConfig) :
    entryTimesToCheck cfg = 300 ∧ entrySleepMs cfg = 1000 ∧
    ∀ fetch : Nat → Option Rat, waitForBuySignal cfg fetch = wfbsGo fetch 0 300 [] :=
  ⟨rfl, rfl, fun _ => rfl⟩

/-- Configuration fixture differing from `cfg1` in every polling field. -/
def cfgB : BotConfig :=
  { cfg1 with priceCheckInterval := 7, priceCheckDuration := 77,
              filterCheckInterval := 13, filterCheckDuration := 130 }

/-- Counterexample for C9 as stated: two configurations that differ in all
four polling interval/duration fields produce the identical entry-loop
iteration count and per-tick sleep - the entry polling is not
configuration-controlled (there is no entry polling field at all; the
constants of lines 205 and 260 are used instead). -/
theorem entry_polling_config_independent_cex :
    cfg1.priceCheckInterval ≠ cfgB.priceCheckInterval ∧
    cfg1.priceCheckDuration ≠ cfgB.priceCheckDuration ∧
    cfg1.filterCheckInterval ≠ cfgB.filterCheckInterval ∧
    cfg1.filterCheckDuration ≠ cfgB.filterCheckDuration ∧
    entryTimesToCheck cfg1 = entryTimesToCheck cfgB ∧
    entrySleepMs cfg1 = entrySleepMs cfgB := by
  decide

/-! ## C7: the entry decision rule -/

lemma abortCond_buySignalCond_disjoint {t : Nat} {prices : List Rat}
    (h : abortCond t prices = true) : buySignalCond prices = false := by
  unfold abortCond at h
  cases hr : calculateRSIv2 prices with
  | none => simp [buySignalCond, hr, optGtZero]
  | some r =>
    rw [hr] at h
    simp only [Bool.and_eq_true, decide_eq_true_eq, optEqZero] at h
    have hr0 : r = 0 := by
      have := h.1.2
      simpa using this
    simp [buySignalCond, hr, hr0, optGtZero]

lemma wfbsGo_true_iff (fetch : Nat → Option Rat) :
    ∀ fuel t, wfbsGo fetch t fuel (pricesThrough fetch t) = true ↔
      ∃ u, t ≤ u ∧ u < t + fuel ∧ buyTickAt fetch u ∧
        ∀ s, t ≤ s → s < u → ¬ abortTickAt fetch s := by
  intro fuel
  induction fuel with
  | zero =>
    intro t
    constructor
    · intro h
      exact absurd h (by simp [wfbsGo])
    · rintro ⟨u, h1, h2, _, _⟩
      omega
  | succ fuel ih =>
    intro t
    cases hf : fetch t with
    | none =>
      have hp : pricesThrough fetch (t + 1) = pricesThrough fetch t := by
        simp [pricesThrough, hf]
      have hstep : wfbsGo fetch t (fuel + 1) (pricesThrough fetch t) =
          wfbsGo fetch (t + 1) fuel (pricesThrough fetch (t + 1)) := by
        rw [hp]
        simp [wfbsGo, hf]
      rw [hstep, ih (t + 1)]
      constructor
      · rintro ⟨u, h1, h2, hc, hall⟩
        refine ⟨u, by omega, by omega, hc, ?_⟩
        intro s hs1 hs2
        rcases Nat.eq_or_lt_of_le hs1 with he | hlt
        · intro habort
          have hsome : (fetch s).isSome = true := habort.1
          rw [← he, hf] at hsome
          simp at hsome
        · exact hall s hlt hs2
      · rintro ⟨u, h1, h2, hc, hall⟩
        have hne : t ≠ u := by
          intro he
          have hsome : (fetch u).isSome = true := hc.1
          rw [← he, hf] at hsome
          simp at hsome
        exact ⟨u, by omega, by omega, hc, fun s hs1 hs2 => hall s (by omega) hs2⟩
    | some p =>
      have hp : pricesThrough fetch (t + 1) = dedupAppend (pricesThrough fetch t) p := by
        simp [pricesThrough, hf]
      by_cases ha : abortCond t (pricesThrough fetch (t + 1)) = true
      · have hstep : wfbsGo fetch t (fuel + 1) (pricesThrough fetch t) = false := by
          simp only [wfbsGo, hf, ← hp]
          rw [if_pos ha]
        rw [hstep]
        constructor
        · intro h
          exact absurd h (by simp)
        · rintro ⟨u, h1, h2, hc, hall⟩
          rcases Nat.eq_or_lt_of_le h1 with he | hlt
          · exfalso
            rw [← he] at hc
            have hfalse := abortCond_buySignalCond_disjoint ha
            rw [hc.2] at hfalse
            simp at hfalse
          · exact absurd ⟨by simp [hf], ha⟩ (hall t (le_refl t) hlt)
      · by_cases hb : buySignalCond (pricesThrough fetch (t + 1)) = true
        · have hstep : wfbsGo fetch t (fuel + 1) (pricesThrough fetch t) = true := by
            simp only [wfbsGo, hf, ← hp]
            rw [if_neg ha, if_pos hb]
          rw [hstep]
          constructor
          · intro _
            exact ⟨t, le_refl t, by omega, ⟨by simp [hf], hb⟩, fun s hs1 hs2 => by omega⟩
          · intro _
            rfl
        · have hstep : wfbsGo fetch t (fuel + 1) (pricesThrough fetch t) =
              wfbsGo fetch (t + 1) fuel (pricesThrough fetch (t + 1)) := by
            simp only [wfbsGo, hf, ← hp]
            rw [if_neg ha, if_neg hb]
          rw [hstep, ih (t + 1)]
          constructor
          · rintro ⟨u, h1, h2, hc, hall⟩
            refine ⟨u, by omega, by omega, hc, ?_⟩
            intro s hs1 hs2
            rcases Nat.eq_or_lt_of_le hs1 with he | hlt
            · intro habort
              rw [← he] at habort
              exact ha habort.2
            · exact hall s hlt hs2
          · rintro ⟨u, h1, h2, hc, hall⟩
            have hne : t ≠ u := by
              intro he
              rw [← he] at hc
              exact hb hc.2
            exact ⟨u, by omega, by omega, hc, fun s hs1 hs2 => hall s (by omega) hs2⟩

/-- C7 (amended): `waitForBuySignal` returns `true` exactly when some
executed tick `t` within the 300-tick budget satisfies the code's buy
condition - `0 < RSI < 30` and both MACD values TRUTHY (non-null, non-NaN
and also non-zero, since line 247 tests `macd.macd && macd.signal`) with
`macd > signal` - and no earlier executed tick satisfied the early-abort
condition of line 242.  The first such tick returns `true` immediately;
every tick failing the condition does not.  The claim's reading of the
condition as mere non-nullness is refuted by the counterexample below. -/
theorem waitForBuySignal_first_signal_tick (cfg : BotConfig) (fetch : Nat → Option Rat) :
    waitForBuySignal cfg fetch = true ↔
      ∃ t, t < entryTimesToCheck cfg ∧ buyTickAt fetch t ∧
        ∀ s, s < t → ¬ abortTickAt fetch s := by
  have h := wfbsGo_true_iff fetch (entryTimesToCheck cfg) 0
  have h0 : pricesThrough fetch 0 = [] := rfl
  rw [h0] at h
  unfold waitForBuySignal
  rw [h]
  constructor
  · rintro ⟨u, _, h2, hc, hall⟩
    exact ⟨u, by omega, hc, fun s hs => hall s (by omega) hs⟩
  · rintro ⟨u, h2, hc, hall⟩
    exact ⟨u, by omega, by omega, hc, fun s _ hs => hall s hs⟩

/-- Witness for C7: an oracle whose fetch always throws never executes a
tick, so the gate returns `false`. -/
theorem waitForBuySignal_first_signal_tick_witness :
    waitForBuySignal cfg1 (fun _ => none) = false := by
  have h := waitForBuySignal_first_signal_tick cfg1 (fun _ => none)
  cases hb : waitForBuySignal cfg1 (fun _ => none) with
  | false => rfl
  | true =>
    obtain ⟨t, _, hc, _⟩ := h.mp hb
    have hsome : (none : Option Rat).isSome = true := hc.1
    simp at hsome

/-- Price curve for the C7 counterexample: a decline from 1000 in steps of
3, a recovery in steps of 9/5, and one final price chosen so that the
signal line lands exactly on `0`.  Adjacent entries are pairwise distinct,
so the dedup-append of line 234 keeps every observation. -/
def exCurve : List Rat :=
  [1000, 997, 994, 991, 988, 985, 982, 979, 976, 973, 970, 967, 964, 961, 958, 955, 952, 949,
    946, 943, 940, 937, 934, 931, 928, 925, 922, 919, 916, 913, 910, 4559 / 5, 4568 / 5,
    4577 / 5, 4586 / 5, 919, 4604 / 5, 4613 / 5, 4622 / 5, 4631 / 5, 928, 4649 / 5, 4658 / 5,
    4667 / 5, 4676 / 5, 937, 4694 / 5, 4703 / 5, 4712 / 5, 4721 / 5, 946, 4739 / 5, 4748 / 5,
    855227094167680280294537873796070506087188665852006698039730416569673945164713 / 937221284101936766411250584291067370883320642077083553930788497924804687500]

/-- Fetch oracle delivering `exCurve` one price per tick; later fetches
throw. -/
def exFetch : Nat → Option Rat := fun t => if t < 54 then some (exCurve.getD t 0) else none

set_option maxRecDepth 40000 in
set_option maxHeartbeats 4000000 in
/-- Counterexample for C7 as stated: at tick 53 of this run the
specification's condition holds - `0 < RSI < 30` (RSI is about 29.6), both
MACD values are non-null, and `macd > signal` (about 0.236 > 0) - yet
`waitForBuySignal` does not return `true`: the signal value is exactly `0`,
which is falsy in the JavaScript test `macd.macd && macd.signal` of line
247, so the tick is skipped and the run ends `false`. -/
theorem waitForBuySignal_zero_signal_cex :
    specBuySignalCond (pricesThrough exFetch 54) = true ∧
    buySignalCond (pricesThrough exFetch 54) = false ∧
    waitForBuySignal cfg1 exFetch = false := by
  refine ⟨by with_unfolding_all decide, by with_unfolding_all decide,
    by with_unfolding_all decide⟩
